import Mathlib

/-!
Shallow embedding of the quota-aware YouTube polling core of the `bsn`
repository (src/youtube/youtube.py, src/youtube/quota.py, src/auth/oauth.py,
src/models.py), together with theorems settling the frozen claims about it.

Machine integers are modelled as `Nat`/`Int` (Python integers are unbounded,
so no wrap-around modelling is needed).  Fallible Python code (functions that
`raise`) is modelled with `Option`: `none` is an escaping exception.
Database rows are modelled as Lean structures and the per-table stores as
lists of rows; `select ... where` becomes `List.find?`/`List.filter`.
-/

namespace BSN

/-! ### Quota ledger (src/youtube/quota.py, src/youtube/youtube.py)

`QuotaUsage` rows carry `usage_count` and `quota_remaining` (src/models.py,
class QuotaUsage).  Only the two counters matter to the claims; the window
timestamps select which row is current and are kept outside the state. -/

structure QuotaUsageState where
  usage_count : Nat
  quota_remaining : Nat
  deriving Repr, DecidableEq

/-- Embeds `initialize_usage` (src/youtube/quota.py lines 58-66): the freshly
created row for a new window has `usage_count = 0` and
`quota_remaining = policy.limit`. -/
def init_usage (limit : Nat) : QuotaUsageState :=
  { usage_count := 0, quota_remaining := limit }

/-- Embeds `__check_available_quota` (src/youtube/youtube.py lines 218-249)
restricted to the found policy/usage row: returns `false` iff
`usage.quota_remaining <= 0`. -/
def check_available_quota (st : QuotaUsageState) : Bool :=
  !(st.quota_remaining ≤ 0 : Bool)

/-- Embeds the core of `__increment_quota_usage` (src/youtube/youtube.py lines
203-215) on the found usage row: raises (`none`) when
`usage.quota_remaining < units_used`, otherwise adds `units_used` to
`usage_count` and subtracts it from `quota_remaining`. -/
def increment_quota_usage (units_used : Nat) (st : QuotaUsageState) :
    Option QuotaUsageState :=
  if st.quota_remaining < units_used then
    none
  else
    some { usage_count := st.usage_count + units_used,
           quota_remaining := st.quota_remaining - units_used }

/-- A sequence of `__increment_quota_usage` calls, each preceded by a passing
`__check_available_quota` (the gating discipline the callers in
src/youtube/youtube.py follow); `none` when a check fails or an increment
raises. -/
def run_gated_increments : List Nat → QuotaUsageState → Option QuotaUsageState
  | [], st => some st
  | u :: us, st =>
    if check_available_quota st then
      match increment_quota_usage u st with
      | none => none
      | some st1 => run_gated_increments us st1
    else
      none

/-- The quota ledger invariant of spec section 3. -/
def quota_invariant (limit : Nat) (st : QuotaUsageState) : Prop :=
  st.usage_count + st.quota_remaining = limit

/-! ### Paginated request chain (src/youtube/youtube.py lines 155-174)

`__make_request` executes the initial request, increments the quota ledger,
and then, while the response carries a `nextPageToken`, re-executes the
mutated request and increments again, concatenating all pages' `items`.
Each quota-relevant operation is recorded as an event so that the gating
order of the chain can be stated.  A paginated response is modelled as the
first page's items plus the remaining pages' items (the response always has
at least one page). -/

inductive QuotaEvent where
  | check
  | exec
  | inc (units : Nat)
  deriving Repr, DecidableEq

/-- Embeds `__make_request` (src/youtube/youtube.py lines 155-174): the event
trace together with the accumulated `items` of all pages, in response order.
`first` is the initial response's item list; `rest` the item lists of the
pages reached by following `nextPageToken`. -/
def make_request (first : List String) (rest : List (List String))
    (units_used : Nat) : List QuotaEvent × List String :=
  rest.foldl
    (fun acc page =>
      (acc.1 ++ [QuotaEvent.exec, QuotaEvent.inc units_used], acc.2 ++ page))
    ([QuotaEvent.exec, QuotaEvent.inc units_used], first)

/-- Embeds the quota-facing behaviour of `pull_my_subscriptions`
(src/youtube/youtube.py lines 14-31): one `__check_available_quota` call
first; `(trace, none)` when the quota is exhausted (the whole chain is
skipped), otherwise the `__make_request` chain at 1 unit per call. -/
def pull_my_subscriptions_quota (st : QuotaUsageState) (first : List String)
    (rest : List (List String)) : List QuotaEvent × Option (List String) :=
  if check_available_quota st then
    let r := make_request first rest 1
    (QuotaEvent.check :: r.1, some r.2)
  else
    ([QuotaEvent.check], none)

/-- `true` iff every `exec` event in the trace is preceded by a `check` event
with no other `exec` in between — i.e. each individual execute call is gated
by its own quota check.  `armed` records whether a check has happened since
the last execute. -/
def execs_gated : List QuotaEvent → Bool → Bool
  | [], _ => true
  | QuotaEvent.check :: es, _ => execs_gated es true
  | QuotaEvent.exec :: es, armed => armed && execs_gated es false
  | QuotaEvent.inc _ :: es, armed => execs_gated es armed

/-- `true` iff every `exec` event in the trace is immediately followed by an
`inc u` event (the per-page quota increment after a successful execute). -/
def execs_incremented (u : Nat) : List QuotaEvent → Bool
  | QuotaEvent.exec :: QuotaEvent.inc v :: es =>
      (v == u) && execs_incremented u es
  | QuotaEvent.exec :: _ => false
  | _ :: es => execs_incremented u es
  | [] => true

/-- The trace of an `n`-page chain at `u` units per call: `exec` then `inc u`,
`n` times. -/
def pages_trace (u : Nat) : Nat → List QuotaEvent
  | 0 => []
  | n + 1 => QuotaEvent.exec :: QuotaEvent.inc u :: pages_trace u n

/-! ### Channel diff sweep (src/youtube/youtube.py lines 104-152)

`__youtube_subs_response_to_channels` walks the subscription listing items,
inserting unseen channels and diffing seen channels' `totalItemCount` against
the stored `num_videos`, then deletes every stored channel whose id is not in
the listing.  The `youtube_channel` table is a list of rows with unique ids;
`select ... where id == ...` is `List.find?` and the final
`delete ... where id not_in ...` is `List.filter`. -/

structure YoutubeChannel where
  id : String
  name : String
  num_videos : Nat
  deriving Repr, DecidableEq

/-- One item of the subscriptions-list response, restricted to the fields the
code reads: `snippet.resourceId.channelId`, `snippet.title`,
`contentDetails.totalItemCount`. -/
structure SubItem where
  channelId : String
  title : String
  totalItemCount : Nat
  deriving Repr, DecidableEq

/-- `select(YoutubeChannel).where(YoutubeChannel.id == channel_id)` with
`scalar_one_or_none()`. -/
def lookup_channel (store : List YoutubeChannel) (channel_id : String) :
    Option YoutubeChannel :=
  store.find? (fun ch => ch.id == channel_id)

/-- Persisting an updated row: the row with the same id is replaced. -/
def update_channel (store : List YoutubeChannel) (ch : YoutubeChannel) :
    List YoutubeChannel :=
  store.map (fun c => if c.id == ch.id then ch else c)

/-- The body of the per-item loop of `__youtube_subs_response_to_channels`
(src/youtube/youtube.py lines 110-144).  Returns the updated store, the
channel row appended to `all_channels`, and whether the channel was flagged
recently uploaded (appended to `recently_uploaded_channels`). -/
def process_sub_item (store : List YoutubeChannel) (c : SubItem) :
    List YoutubeChannel × YoutubeChannel × Bool :=
  match lookup_channel store c.channelId with
  | none =>
      let channel : YoutubeChannel :=
        { id := c.channelId, name := c.title, num_videos := c.totalItemCount }
      (store ++ [channel], channel, false)
  | some channel =>
      let current_num_videos := c.totalItemCount
      let flagged := current_num_videos == channel.num_videos + 1
      let channel1 :=
        { channel with num_videos := current_num_videos, name := c.title }
      (update_channel store channel1, channel1, flagged)

/-- The item loop of `__youtube_subs_response_to_channels`, accumulating
`all_channels` and `recently_uploaded_channels` in response order. -/
def process_sub_items (store : List YoutubeChannel) :
    List SubItem → List YoutubeChannel × List YoutubeChannel × List YoutubeChannel
  | [] => (store, [], [])
  | c :: cs =>
      let r := process_sub_item store c
      let rec1 := process_sub_items r.1 cs
      (rec1.1, r.2.1 :: rec1.2.1, (if r.2.2 then [r.2.1] else []) ++ rec1.2.2)

/-- Embeds `__youtube_subs_response_to_channels` (src/youtube/youtube.py lines
104-152): the per-item loop followed by
`delete(YoutubeChannel).where(YoutubeChannel.id.not_in(current_channel_ids))`.
Returns the store after the sweep, `all_channels` and
`recently_uploaded_channels`. -/
def youtube_subs_response_to_channels (store : List YoutubeChannel)
    (response : List SubItem) :
    List YoutubeChannel × List YoutubeChannel × List YoutubeChannel :=
  let r := process_sub_items store response
  let current_channel_ids := response.map (fun c => c.channelId)
  let kept := r.1.filter (fun ch => current_channel_ids.contains ch.id)
  (kept, r.2.1, r.2.2)

/-! ### Latest-video fetch (src/youtube/youtube.py lines 34-101)

`get_recent_videos` checks the quota once, then for every channel executes a
playlist-items request (1 unit each), skips non-public items, builds a
`YoutubeVideo` row with `is_short=False` and `is_livestream=False`,
delete-then-inserts it as the channel's stored video and collects it in the
returned batch.  The external API call is modelled by pairing each channel
with the playlist item its request returns; timestamps are UTC seconds
(`astimezone()` changes only the representation of the instant, not the
instant itself). -/

structure YoutubeVideo where
  id : String
  title : String
  url : String
  thumbnail_url : String
  is_short : Bool
  is_livestream : Bool
  uploaded_at : Int
  youtube_channel_id : String
  deriving Repr, DecidableEq

/-- One playlist-items response item, restricted to the fields the code
reads: `status.privacyStatus`, `snippet.title`,
`snippet.thumbnails.high.url`, `contentDetails.videoPublishedAt` (parsed to
an instant), `contentDetails.videoId`. -/
structure PlaylistItem where
  privacyStatus : String
  title : String
  thumbnailUrl : String
  videoPublishedAt : Int
  videoId : String
  deriving Repr, DecidableEq

/-- The per-channel loop of `get_recent_videos` (src/youtube/youtube.py lines
47-99): quota increment (1 unit, may raise), privacy skip, row construction,
delete-then-insert into the `youtube_video` store, batch accumulation.
`none` is an escaping quota exception. -/
def recent_videos_loop :
    QuotaUsageState → List YoutubeVideo → List (YoutubeChannel × PlaylistItem) →
    Option (QuotaUsageState × List YoutubeVideo × List YoutubeVideo)
  | st, vstore, [] => some (st, vstore, [])
  | st, vstore, (channel, body) :: fetched =>
      let channel_id := "UC" ++ channel.id.drop 2
      match increment_quota_usage 1 st with
      | none => none
      | some st1 =>
        if body.privacyStatus != "public" then
          recent_videos_loop st1 vstore fetched
        else
          let video : YoutubeVideo :=
            { id := body.videoId
              title := body.title
              url := "https://www.youtube.com/watch?v=" ++ body.videoId
              thumbnail_url := body.thumbnailUrl
              is_short := false
              is_livestream := false
              uploaded_at := body.videoPublishedAt
              youtube_channel_id := channel_id }
          let vstore1 :=
            (vstore.filter (fun v => !(v.youtube_channel_id == channel_id)))
              ++ [video]
          match recent_videos_loop st1 vstore1 fetched with
          | none => none
          | some r => some (r.1, r.2.1, video :: r.2.2)

/-- Embeds `get_recent_videos` (src/youtube/youtube.py lines 34-101): a single
`__check_available_quota` up front (returning the empty batch when
exhausted), then the per-channel loop.  `fetched` pairs each input channel
with the playlist item its request returns. -/
def get_recent_videos (st : QuotaUsageState) (vstore : List YoutubeVideo)
    (fetched : List (YoutubeChannel × PlaylistItem)) :
    Option (QuotaUsageState × List YoutubeVideo × List YoutubeVideo) :=
  if check_available_quota st then
    recent_videos_loop st vstore fetched
  else
    some (st, vstore, [])

/-! ### OAuth expiry and refresh (src/auth/oauth.py)

A Python `datetime` is modelled as a wall-clock reading in seconds (the value
the fields would denote if read as UTC) plus an optional timezone offset in
seconds; `tzOffset = none` is a naive timestamp.
`replace(tzinfo=timezone.utc)` keeps the wall-clock reading and sets the
offset to `0`; subtraction of aware datetimes compares the denoted
instants. -/

structure PyDatetime where
  wall : Int
  tzOffset : Option Int
  deriving Repr, DecidableEq

/-- The instant a timezone-aware `PyDatetime` denotes, in UTC seconds. -/
def PyDatetime.toUtcSeconds (d : PyDatetime) : Int :=
  d.wall - d.tzOffset.getD 0

/-- Embeds `_is_expired` (src/auth/oauth.py lines 150-165): `false` when
`creds.expiry` is `None`; otherwise a naive expiry is normalised to UTC via
`replace(tzinfo=timezone.utc)` and the result is
`(expiry - now).total_seconds() <= margin_seconds`.  `nowUtc` is
`datetime.now(tz=timezone.utc)` in UTC seconds. -/
def is_expired (nowUtc : Int) (expiry : Option PyDatetime)
    (margin_seconds : Int) : Bool :=
  match expiry with
  | none => false
  | some e =>
      let e1 := if e.tzOffset.isNone then { e with tzOffset := some 0 } else e
      let seconds_remaining := e1.toUtcSeconds - nowUtc
      seconds_remaining ≤ margin_seconds

/-- The `OauthCredential` row (src/models.py), restricted to the fields
`refresh_credential` consults.  `refresh_token = none` is a SQL NULL;
`some ""` is a stored empty string — both are falsy in Python. -/
structure OauthCredential where
  id : Nat
  access_token : Option String
  refresh_token : Option String
  expiry : Option PyDatetime
  deriving Repr, DecidableEq

/-- Python's `not row.refresh_token`: true for `None` and for `""`. -/
def refresh_token_missing (row : OauthCredential) : Bool :=
  match row.refresh_token with
  | none => true
  | some s => s == ""

/-- `_delete_credential` (src/auth/oauth.py lines 123-128): hard delete of the
row from the store. -/
def delete_credential (store : List OauthCredential)
    (row : OauthCredential) : List OauthCredential :=
  store.filter (fun r => !(r.id == row.id))

/-- Outcome of the token-endpoint exchange `creds.refresh(Request())`:
either a successfully refreshed credential row or a raised exception.
It is a parameter because the network is external to the embedding. -/
inductive RefreshOutcome where
  | success (updated : OauthCredential)
  | failure
  deriving Repr, DecidableEq

/-- Result of `refresh_credential`: the returned row (or `None`), the
credential store afterwards, and whether a network call was made. -/
structure RefreshResult where
  returned : Option OauthCredential
  store : List OauthCredential
  network_call_made : Bool
  deriving Repr, DecidableEq

/-- Embeds `refresh_credential` (src/auth/oauth.py lines 173-204): with a
falsy refresh token the row is deleted and `None` returned before any
network traffic; otherwise the token exchange runs — on failure the stale
row is deleted and `None` returned, on success the refreshed row is saved in
place via `_save_credential(creds, db_row=row)` and returned. -/
def refresh_credential (store : List OauthCredential) (row : OauthCredential)
    (net : RefreshOutcome) : RefreshResult :=
  if refresh_token_missing row then
    { returned := none, store := delete_credential store row,
      network_call_made := false }
  else
    match net with
    | RefreshOutcome.failure =>
        { returned := none, store := delete_credential store row,
          network_call_made := true }
    | RefreshOutcome.success updated =>
        let saved := { updated with id := row.id }
        { returned := some saved,
          store := store.map (fun r => if r.id == row.id then saved else r),
          network_call_made := true }

/-! ### Polling cadence (src/youtube/youtube.py lines 252-268)

`calculate_interval_between_cycles` reads the channel count and computes
`ceil(86400 / (10000 // ceil((N+1)/50)))`.  Python's `math.ceil` of a float
division agrees with natural ceiling division for all the quotients that can
arise here (denominators are at most 10000, so the true quotient is never
within floating-point error of an integer it does not equal); a zero cycle
count would raise `ZeroDivisionError`, modelled as `none`. -/

/-- Natural ceiling division, `ceil(a / b)` for `b > 0`. -/
def ceil_div (a b : Nat) : Nat :=
  (a + b - 1) / b

/-- Embeds `calculate_interval_between_cycles` (src/youtube/youtube.py lines
252-268) as a function of the stored channel count. -/
def calculate_interval_between_cycles (num_channels : Nat) : Option Nat :=
  let total_requests_allowed_per_day := 10000
  let requests_per_cycle := ceil_div (num_channels + 1) 50
  let num_cycles_per_day := total_requests_allowed_per_day / requests_per_cycle
  let seconds_per_day := 24 * 60 * 60
  if num_cycles_per_day = 0 then
    none
  else
    some (ceil_div seconds_per_day num_cycles_per_day)

/-! ## Theorems -/

/-- A single successful `__increment_quota_usage` preserves
`usage_count + quota_remaining = limit`. -/
theorem increment_preserves_quota_invariant (limit u : Nat)
    (st st1 : QuotaUsageState) (hinv : quota_invariant limit st)
    (h : increment_quota_usage u st = some st1) : quota_invariant limit st1 := by
  unfold increment_quota_usage at h
  split at h
  · exact absurd h (by simp)
  · cases h
    unfold quota_invariant at hinv ⊢
    simp only
    omega

/-- Any gated run of increments preserves the quota invariant. -/
theorem run_gated_increments_preserves_invariant (limit : Nat) (us : List Nat) :
    ∀ st st1 : QuotaUsageState, quota_invariant limit st →
      run_gated_increments us st = some st1 → quota_invariant limit st1 := by
  induction us with
  | nil =>
      intro st st1 hinv h
      simp only [run_gated_increments, Option.some.injEq] at h
      exact h ▸ hinv
  | cons u us ih =>
      intro st st1 hinv h
      simp only [run_gated_increments] at h
      split at h
      · cases hinc : increment_quota_usage u st with
        | none => rw [hinc] at h; exact absurd h (by simp)
        | some st2 =>
            rw [hinc] at h
            exact ih st2 st1
              (increment_preserves_quota_invariant limit u st st2 hinv hinc) h
      · exact absurd h (by simp)

/-- C4: for every quota usage row, after any sequence of increment calls each
preceded by a passing `checkAvailable`, the invariant
`usage_count + quota_remaining == policy.limit` holds, starting from the
initialized state `usage_count = 0`, `quota_remaining = policy.limit`. -/
theorem quota_invariant_after_gated_increments (limit : Nat) (us : List Nat)
    (st : QuotaUsageState)
    (h : run_gated_increments us (init_usage limit) = some st) :
    st.usage_count + st.quota_remaining = limit :=
  run_gated_increments_preserves_invariant limit us (init_usage limit) st
    (by simp [quota_invariant, init_usage]) h

/-- C4 witness: two gated increments of 3 and 4 units starting from limit 10
land on the state (7, 3), which satisfies the invariant. -/
theorem quota_invariant_after_gated_increments_witness :
    (QuotaUsageState.mk 7 3).usage_count
      + (QuotaUsageState.mk 7 3).quota_remaining = 10 :=
  quota_invariant_after_gated_increments 10 [3, 4] (QuotaUsageState.mk 7 3)
    (by decide)

/-- C9: for every usage row and requested unit count,
`__increment_quota_usage` raises when `units > quota_remaining`, and
otherwise adds `units` to `usage_count` and subtracts `units` from
`quota_remaining`. -/
theorem increment_raises_or_updates (st : QuotaUsageState) (units : Nat) :
    (units > st.quota_remaining → increment_quota_usage units st = none) ∧
    (units ≤ st.quota_remaining →
      increment_quota_usage units st =
        some { usage_count := st.usage_count + units,
               quota_remaining := st.quota_remaining - units }) := by
  constructor
  · intro hgt
    unfold increment_quota_usage
    rw [if_pos hgt]
  · intro hle
    unfold increment_quota_usage
    rw [if_neg (by omega)]

/-- C9 witness: with remaining 5 an increment of 10 raises; with remaining 5
an increment of 2 moves (3, 5) to (3 + 2, 5 - 2). -/
theorem increment_raises_or_updates_witness :
    increment_quota_usage 10 (QuotaUsageState.mk 0 5) = none ∧
    increment_quota_usage 2 (QuotaUsageState.mk 3 5) =
      some { usage_count := (QuotaUsageState.mk 3 5).usage_count + 2,
             quota_remaining := (QuotaUsageState.mk 3 5).quota_remaining - 2 } :=
  ⟨(increment_raises_or_updates (QuotaUsageState.mk 0 5) 10).1 (by decide),
   (increment_raises_or_updates (QuotaUsageState.mk 3 5) 2).2 (by decide)⟩

/-- C5: `calculate_interval_between_cycles` returns exactly
`ceil(86400 / (10000 // ceil((N+1)/50)))` seconds for channel count `N`
(whenever that quotient is nonzero, i.e. the code does not divide by zero),
and in particular returns 9 for N = 1, 26 for N = 100 and 96 for N = 500. -/
theorem calculate_interval_formula (num_channels : Nat)
    (h : 10000 / ceil_div (num_channels + 1) 50 ≠ 0) :
    calculate_interval_between_cycles num_channels =
      some (ceil_div 86400 (10000 / ceil_div (num_channels + 1) 50)) ∧
    calculate_interval_between_cycles 1 = some 9 ∧
    calculate_interval_between_cycles 100 = some 26 ∧
    calculate_interval_between_cycles 500 = some 96 := by
  refine ⟨?_, by decide, by decide, by decide⟩
  unfold calculate_interval_between_cycles
  simp only [if_neg h]

/-- C5 witness: the formula instantiated at one stored channel. -/
theorem calculate_interval_formula_witness :
    calculate_interval_between_cycles 1 =
      some (ceil_div 86400 (10000 / ceil_div (1 + 1) 50)) ∧
    calculate_interval_between_cycles 1 = some 9 ∧
    calculate_interval_between_cycles 100 = some 26 ∧
    calculate_interval_between_cycles 500 = some 96 :=
  calculate_interval_formula 1 (by decide)

/-- C6: for every credential and margin, `_is_expired` returns false when the
expiry is unset, and otherwise returns true iff `expiry - now <= margin`
seconds after normalizing a timezone-naive expiry to UTC (setting a zero
offset while keeping the wall-clock reading). -/
theorem is_expired_characterisation (nowUtc margin : Int) :
    is_expired nowUtc none margin = false ∧
    (∀ e : PyDatetime,
      (is_expired nowUtc (some e) margin = true ↔
        ({ e with tzOffset := some (e.tzOffset.getD 0) } : PyDatetime).toUtcSeconds
          - nowUtc ≤ margin)) := by
  refine ⟨rfl, fun e => ?_⟩
  cases h : e.tzOffset with
  | none =>
      simp [is_expired, PyDatetime.toUtcSeconds, h]
  | some off =>
      simp [is_expired, PyDatetime.toUtcSeconds, h]

/-- C6 witness: a naive expiry 10 seconds from now with a 20-second margin is
reported expired, because the naive reading is compared as UTC. -/
theorem is_expired_characterisation_witness :
    is_expired 1000 (some (PyDatetime.mk 1010 none)) 20 = true :=
  ((is_expired_characterisation 1000 20).2 (PyDatetime.mk 1010 none)).mpr
    (by decide)

/-- C8: for every stored credential whose refresh token is empty or missing,
`refresh_credential` deletes the credential row (it is no longer found in the
store) and returns none without making any network call. -/
theorem refresh_missing_token_deletes (store : List OauthCredential)
    (row : OauthCredential) (net : RefreshOutcome)
    (h : refresh_token_missing row = true) :
    refresh_credential store row net =
      { returned := none, store := delete_credential store row,
        network_call_made := false } ∧
    (refresh_credential store row net).store.find?
      (fun r => r.id == row.id) = none := by
  have hres : refresh_credential store row net =
      { returned := none, store := delete_credential store row,
        network_call_made := false } := by
    unfold refresh_credential
    rw [if_pos h]
  refine ⟨hres, ?_⟩
  rw [hres]
  simp only [delete_credential, List.find?_eq_none, List.mem_filter]
  intro r hr
  simpa using hr.2

/-- C8 witness: a credential with an empty-string refresh token, alongside an
unrelated row, is deleted without network traffic even when the (unused)
network outcome would have succeeded. -/
theorem refresh_missing_token_deletes_witness :
    refresh_credential
        [OauthCredential.mk 1 (some "at") (some "") none,
         OauthCredential.mk 2 (some "bt") (some "rt") none]
        (OauthCredential.mk 1 (some "at") (some "") none)
        (RefreshOutcome.success (OauthCredential.mk 9 (some "new") (some "r2") none)) =
      { returned := none,
        store := delete_credential
          [OauthCredential.mk 1 (some "at") (some "") none,
           OauthCredential.mk 2 (some "bt") (some "rt") none]
          (OauthCredential.mk 1 (some "at") (some "") none),
        network_call_made := false } ∧
    (refresh_credential
        [OauthCredential.mk 1 (some "at") (some "") none,
         OauthCredential.mk 2 (some "bt") (some "rt") none]
        (OauthCredential.mk 1 (some "at") (some "") none)
        (RefreshOutcome.success (OauthCredential.mk 9 (some "new") (some "r2") none))).store.find?
      (fun r => r.id == (OauthCredential.mk 1 (some "at") (some "") none).id) = none :=
  refresh_missing_token_deletes
    [OauthCredential.mk 1 (some "at") (some "") none,
     OauthCredential.mk 2 (some "bt") (some "rt") none]
    (OauthCredential.mk 1 (some "at") (some "") none)
    (RefreshOutcome.success (OauthCredential.mk 9 (some "new") (some "r2") none))
    (by decide)

/-- Looking a channel up after `update_channel` replaced its row returns the
replacement. -/
theorem lookup_update_channel (cid : String) (ch ch1 : YoutubeChannel)
    (hid : ch1.id = ch.id) (store : List YoutubeChannel)
    (hfind : lookup_channel store cid = some ch) :
    lookup_channel (update_channel store ch1) cid = some ch1 := by
  have hchid : ch.id = cid := by
    have hf2 := hfind
    unfold lookup_channel at hf2
    simpa using List.find?_some hf2
  revert hfind
  induction store with
  | nil =>
      intro hfind
      simp [lookup_channel] at hfind
  | cons a t ih =>
      intro hfind
      unfold lookup_channel at hfind ⊢
      unfold update_channel
      rw [List.map_cons]
      cases hpa : (a.id == cid) with
      | true =>
          have h3 : List.find? (fun c : YoutubeChannel => c.id == cid) (a :: t)
              = some a := List.find?_cons_of_pos _ hpa
          rw [h3] at hfind
          have hcha : a = ch := Option.some.inj hfind
          have hfa : (if a.id == ch1.id then ch1 else a) = ch1 := by
            rw [if_pos]
            simp [hid, hcha]
          rw [hfa]
          exact List.find?_cons_of_pos _ (by simp [hid, hchid])
      | false =>
          have h3 : List.find? (fun c : YoutubeChannel => c.id == cid) (a :: t)
              = List.find? (fun c : YoutubeChannel => c.id == cid) t :=
            List.find?_cons_of_neg _ (by simp [hpa])
          rw [h3] at hfind
          have hfa : (if a.id == ch1.id then ch1 else a) = a := by
            rw [if_neg]
            rw [hid, hchid]
            simp [hpa]
          rw [hfa]
          rw [List.find?_cons_of_neg]
          · exact ih hfind
          · simp [hpa]

/-- C7: for a stored channel with `num_videos = N`, a listing item with
`totalItemCount = N+1` flags the channel recently uploaded and the committed
row holds count `N+1`; any other count (in particular greater than `N+1`)
does not flag the channel but the committed row still holds the new count;
an unseen channel id is appended as a new row with the reported count and is
never flagged. -/
theorem channel_diff_cases (store : List YoutubeChannel) (c : SubItem) :
    (∀ ch, lookup_channel store c.channelId = some ch →
      (process_sub_item store c).2.1.num_videos = c.totalItemCount ∧
      ((process_sub_item store c).2.2 = true ↔
        c.totalItemCount = ch.num_videos + 1) ∧
      lookup_channel (process_sub_item store c).1 c.channelId =
        some (process_sub_item store c).2.1) ∧
    (lookup_channel store c.channelId = none →
      (process_sub_item store c).2.2 = false ∧
      (process_sub_item store c).2.1 =
        { id := c.channelId, name := c.title, num_videos := c.totalItemCount } ∧
      (process_sub_item store c).1 =
        store ++ [(process_sub_item store c).2.1]) := by
  constructor
  · intro ch hfind
    have hps : process_sub_item store c =
        (update_channel store
          { ch with num_videos := c.totalItemCount, name := c.title },
         { ch with num_videos := c.totalItemCount, name := c.title },
         (c.totalItemCount == ch.num_videos + 1)) := by
      unfold process_sub_item
      rw [hfind]
    rw [hps]
    refine ⟨rfl, by simp, ?_⟩
    exact lookup_update_channel c.channelId ch
      { ch with num_videos := c.totalItemCount, name := c.title }
      rfl store hfind
  · intro hnone
    have hps : process_sub_item store c =
        (store ++
          [{ id := c.channelId, name := c.title,
             num_videos := c.totalItemCount }],
         { id := c.channelId, name := c.title,
           num_videos := c.totalItemCount },
         false) := by
      unfold process_sub_item
      rw [hnone]
    rw [hps]
    exact ⟨rfl, rfl, rfl⟩

/-- C7 witness: a stored channel at count 4 listed with count 5 is flagged and
committed at count 5, still found in the store; a different stored channel at
count 4 listed with count 7 is not flagged but committed at 7; an unseen id
is appended unflagged. -/
theorem channel_diff_cases_witness :
    ((process_sub_item [YoutubeChannel.mk "UCx" "X" 4]
        (SubItem.mk "UCx" "X" 5)).2.1.num_videos = (SubItem.mk "UCx" "X" 5).totalItemCount ∧
      ((process_sub_item [YoutubeChannel.mk "UCx" "X" 4]
        (SubItem.mk "UCx" "X" 5)).2.2 = true ↔
        (SubItem.mk "UCx" "X" 5).totalItemCount = (YoutubeChannel.mk "UCx" "X" 4).num_videos + 1) ∧
      lookup_channel (process_sub_item [YoutubeChannel.mk "UCx" "X" 4]
        (SubItem.mk "UCx" "X" 5)).1 (SubItem.mk "UCx" "X" 5).channelId =
        some (process_sub_item [YoutubeChannel.mk "UCx" "X" 4]
          (SubItem.mk "UCx" "X" 5)).2.1) ∧
    ((process_sub_item [YoutubeChannel.mk "UCy" "Y" 4]
        (SubItem.mk "UCz" "Z" 6)).2.2 = false ∧
      (process_sub_item [YoutubeChannel.mk "UCy" "Y" 4]
        (SubItem.mk "UCz" "Z" 6)).2.1 =
        { id := (SubItem.mk "UCz" "Z" 6).channelId,
          name := (SubItem.mk "UCz" "Z" 6).title,
          num_videos := (SubItem.mk "UCz" "Z" 6).totalItemCount } ∧
      (process_sub_item [YoutubeChannel.mk "UCy" "Y" 4]
        (SubItem.mk "UCz" "Z" 6)).1 =
        [YoutubeChannel.mk "UCy" "Y" 4] ++
          [(process_sub_item [YoutubeChannel.mk "UCy" "Y" 4]
            (SubItem.mk "UCz" "Z" 6)).2.1]) :=
  ⟨(channel_diff_cases [YoutubeChannel.mk "UCx" "X" 4]
      (SubItem.mk "UCx" "X" 5)).1 (YoutubeChannel.mk "UCx" "X" 4) (by decide),
   (channel_diff_cases [YoutubeChannel.mk "UCy" "Y" 4]
      (SubItem.mk "UCz" "Z" 6)).2 (by decide)⟩

/-- C1 counterexample: a stored channel absent from the latest listing does
not remain in the store — after the sweep its id no longer resolves. -/
theorem absent_channel_removed_cex :
    lookup_channel
      (youtube_subs_response_to_channels
        [YoutubeChannel.mk "UCaaa" "A" 7]
        [SubItem.mk "UCbbb" "B" 3]).1 "UCaaa" = none := by
  decide

/-- C1 amended: the sweep deletes every stored channel whose id is absent
from the latest subscription listing (rather than keeping it with its
last-observed `num_videos`). -/
theorem absent_channel_deleted (store : List YoutubeChannel)
    (response : List SubItem) (cid : String)
    (h : (response.map fun c => c.channelId).contains cid = false) :
    lookup_channel (youtube_subs_response_to_channels store response).1 cid
      = none := by
  unfold youtube_subs_response_to_channels lookup_channel
  simp only [List.find?_eq_none, List.mem_filter]
  intro ch hch
  intro hbeq
  have hid : ch.id = cid := by simpa using hbeq
  rw [hid] at hch
  rw [hch.2] at h
  exact absurd h (by simp)

/-- C1 amended witness: a stored channel not in the listing is gone after the
sweep. -/
theorem absent_channel_deleted_witness :
    lookup_channel
      (youtube_subs_response_to_channels
        [YoutubeChannel.mk "UCold" "Old" 7, YoutubeChannel.mk "UCkeep" "Keep" 2]
        [SubItem.mk "UCkeep" "Keep" 2]).1 "UCold" = none :=
  absent_channel_deleted
    [YoutubeChannel.mk "UCold" "Old" 7, YoutubeChannel.mk "UCkeep" "Keep" 2]
    [SubItem.mk "UCkeep" "Keep" 2] "UCold" (by decide)

/-- The trace of the page loop of `__make_request`, starting from any
accumulator, appends one `exec`/`inc` pair per remaining page. -/
theorem make_request_foldl_trace (u : Nat) (rest : List (List String)) :
    ∀ (tr : List QuotaEvent) (items : List String),
      (rest.foldl
        (fun acc page =>
          (acc.1 ++ [QuotaEvent.exec, QuotaEvent.inc u], acc.2 ++ page))
        (tr, items)).1 = tr ++ pages_trace u rest.length := by
  induction rest with
  | nil =>
      intro tr items
      simp [pages_trace]
  | cons p ps ih =>
      intro tr items
      rw [List.foldl_cons]
      rw [ih]
      simp [pages_trace]

/-- The full `__make_request` trace of an `n+1`-page response is `n+1`
`exec`/`inc` pairs and nothing else — in particular no `check` events. -/
theorem make_request_trace (first : List String) (rest : List (List String))
    (u : Nat) :
    (make_request first rest u).1 = pages_trace u (rest.length + 1) := by
  unfold make_request
  rw [make_request_foldl_trace]
  simp [pages_trace]

/-- Every `exec` in a pure page trace is immediately followed by its
increment. -/
theorem execs_incremented_pages_trace (u n : Nat) :
    execs_incremented u (pages_trace u n) = true := by
  induction n with
  | zero => rfl
  | succ n ih => simp [pages_trace, execs_incremented, ih]

/-- C2 counterexample: for a two-page subscription listing the trace holds a
single `check` before the first `execute`; the second page's `execute` is not
preceded by any further `check`, so the per-page gating property fails. -/
theorem page_execs_not_individually_gated :
    (pull_my_subscriptions_quota (init_usage 10000) ["a"] [["b"]]).1 =
      [QuotaEvent.check, QuotaEvent.exec, QuotaEvent.inc 1,
       QuotaEvent.exec, QuotaEvent.inc 1] ∧
    execs_gated (pull_my_subscriptions_quota (init_usage 10000) ["a"] [["b"]]).1
      false = false := by
  decide

/-- C2 amended: the chain is gated once — `checkAvailable` runs before the
first `execute` and an exhausted quota aborts the whole chain returning the
skipped result, while every page's `execute` (first and subsequent) is
followed by an `increment(unitsPerCall)`; subsequent pages are not re-gated
individually. -/
theorem chain_gated_once (st : QuotaUsageState) (first : List String)
    (rest : List (List String)) :
    (check_available_quota st = false →
      pull_my_subscriptions_quota st first rest = ([QuotaEvent.check], none)) ∧
    (check_available_quota st = true →
      (pull_my_subscriptions_quota st first rest).1 =
        QuotaEvent.check :: pages_trace 1 (rest.length + 1)) ∧
    execs_incremented 1 (pull_my_subscriptions_quota st first rest).1
      = true := by
  refine ⟨?_, ?_, ?_⟩
  · intro hq
    unfold pull_my_subscriptions_quota
    rw [if_neg (by simp [hq])]
  · intro hq
    unfold pull_my_subscriptions_quota
    rw [if_pos hq]
    simp only
    rw [make_request_trace]
  · by_cases hq : check_available_quota st = true
    · unfold pull_my_subscriptions_quota
      rw [if_pos hq]
      simp only
      rw [make_request_trace]
      have hcheck : execs_incremented 1
          (QuotaEvent.check :: pages_trace 1 (rest.length + 1)) =
          execs_incremented 1 (pages_trace 1 (rest.length + 1)) := rfl
      rw [hcheck]
      exact execs_incremented_pages_trace 1 (rest.length + 1)
    · unfold pull_my_subscriptions_quota
      rw [if_neg hq]
      rfl

/-- C2 amended witness: with a fresh 10000-unit window a two-page chain shows
the gated-once trace, and with an exhausted window the chain is skipped. -/
theorem chain_gated_once_witness :
    pull_my_subscriptions_quota (init_usage 0) ["a"] [["b"]]
      = ([QuotaEvent.check], none) ∧
    (pull_my_subscriptions_quota (init_usage 10000) ["a"] [["b"]]).1 =
      QuotaEvent.check :: pages_trace 1 ([["b"]].length + 1) :=
  ⟨(chain_gated_once (init_usage 0) ["a"] [["b"]]).1 (by decide),
   (chain_gated_once (init_usage 10000) ["a"] [["b"]]).2.1 (by decide)⟩

/-- Every video the per-channel loop returns has both content flags false,
and every row in the store it leaves behind is either an untouched initial
row or a new row with both flags false. -/
theorem recent_videos_loop_flags
    (fetched : List (YoutubeChannel × PlaylistItem)) :
    ∀ (st : QuotaUsageState) (vstore : List YoutubeVideo)
      (r : QuotaUsageState × List YoutubeVideo × List YoutubeVideo),
      recent_videos_loop st vstore fetched = some r →
      (∀ v ∈ r.2.2, v.is_short = false ∧ v.is_livestream = false) ∧
      (∀ v ∈ r.2.1, v ∈ vstore ∨
        (v.is_short = false ∧ v.is_livestream = false)) := by
  induction fetched with
  | nil =>
      intro st vstore r h
      simp only [recent_videos_loop, Option.some.injEq] at h
      subst h
      refine ⟨by simp, fun v hv => Or.inl hv⟩
  | cons cb fetched ih =>
      intro st vstore r h
      obtain ⟨channel, body⟩ := cb
      simp only [recent_videos_loop] at h
      split at h
      · exact absurd h (by simp)
      · rename_i st1 hinc
        split at h
        · exact ih st1 vstore r h
        · split at h
          · exact absurd h (by simp)
          · rename_i r2 hrec
            simp only [Option.some.injEq] at h
            subst h
            have hih := ih st1 _ r2 hrec
            constructor
            · intro v hv
              rcases List.mem_cons.1 hv with hveq | hvmem
              · subst hveq
                exact ⟨rfl, rfl⟩
              · exact hih.1 v hvmem
            · intro v hv
              rcases hih.2 v hv with hmem | hflags
              · rcases List.mem_append.1 hmem with hfil | hnew
                · exact Or.inl (List.mem_filter.1 hfil).1
                · rcases List.mem_singleton.1 hnew with hveq
                  subst hveq
                  exact Or.inr ⟨rfl, rfl⟩
              · exact Or.inr hflags

/-- C10: every Video row stored by the latest-video fetch, and every video it
hands to notification dispatch, has `is_short = false` and
`is_livestream = false` regardless of the fetched playlist item — the code
never sets either flag to true (src/youtube/youtube.py lines 75-99). -/
theorem fetched_videos_never_short_or_livestream (st : QuotaUsageState)
    (vstore : List YoutubeVideo)
    (fetched : List (YoutubeChannel × PlaylistItem))
    (r : QuotaUsageState × List YoutubeVideo × List YoutubeVideo)
    (h : get_recent_videos st vstore fetched = some r) :
    (∀ v ∈ r.2.2, v.is_short = false ∧ v.is_livestream = false) ∧
    (∀ v ∈ r.2.1, v ∈ vstore ∨
      (v.is_short = false ∧ v.is_livestream = false)) := by
  unfold get_recent_videos at h
  split at h
  · exact recent_videos_loop_flags fetched st vstore r h
  · simp only [Option.some.injEq] at h
    subst h
    refine ⟨by simp, fun v hv => Or.inl hv⟩

/-- C10 witness: the video built from a concrete public playlist item has
both flags false. -/
theorem fetched_videos_never_short_or_livestream_witness :
    (YoutubeVideo.mk "vidX" "T" "https://www.youtube.com/watch?v=vidX"
        "https://img" false false 100 "UCchan1").is_short = false ∧
    (YoutubeVideo.mk "vidX" "T" "https://www.youtube.com/watch?v=vidX"
        "https://img" false false 100 "UCchan1").is_livestream = false :=
  (fetched_videos_never_short_or_livestream (init_usage 10000) []
    [(YoutubeChannel.mk "UCchan1" "Chan" 5,
      PlaylistItem.mk "public" "T" "https://img" 100 "vidX")]
    (QuotaUsageState.mk 1 9999,
     [YoutubeVideo.mk "vidX" "T" "https://www.youtube.com/watch?v=vidX"
        "https://img" false false 100 "UCchan1"],
     [YoutubeVideo.mk "vidX" "T" "https://www.youtube.com/watch?v=vidX"
        "https://img" false false 100 "UCchan1"])
    (by decide)).1
    (YoutubeVideo.mk "vidX" "T" "https://www.youtube.com/watch?v=vidX"
        "https://img" false false 100 "UCchan1")
    (by simp)

/-- C3: evaluation of `get_recent_videos` at the failing input — a public
playlist item whose publish instant lies far outside the current cycle
interval window, for a channel whose stored Video row holds a different id.
The code neither applies a staleness guard nor an existing-video check: it
replaces the stored row and includes the video in the notification batch,
while the spec (section 4.5) and the repository's own tests
(`test_get_recent_videos_skips_existing_video`,
`test_get_recent_videos_skips_too_old` in tests/test_youtube.py) require the
batch to be empty. -/
theorem stale_item_still_notified :
    get_recent_videos (init_usage 10000)
      [YoutubeVideo.mk "oldvid" "Old" "u0" "t0" false false (-1000) "UCchan1"]
      [(YoutubeChannel.mk "UCchan1" "Chan" 5,
        PlaylistItem.mk "public" "Old Video" "https://img" (-600) "vid_old")] =
      some (QuotaUsageState.mk 1 9999,
        [YoutubeVideo.mk "vid_old" "Old Video"
          "https://www.youtube.com/watch?v=vid_old" "https://img" false false
          (-600) "UCchan1"],
        [YoutubeVideo.mk "vid_old" "Old Video"
          "https://www.youtube.com/watch?v=vid_old" "https://img" false false
          (-600) "UCchan1"]) := by
  decide

end BSN
